import Mathlib

/-!
Shallow embedding of `link2aws.js` (the `ARN` class: parser, canonical
re-serialization, derived accessors, and the console-link resolver with its
service/resource-type template table), together with theorems checking the
natural-language specification against this embedding.

JavaScript string primitives (`split`, `join`, `indexOf`, `lastIndexOf`,
`slice`, `substr`, `includes`, `replace`, `trim`) are modelled as explicit
Lean functions on `String`/`List Char` with the same semantics on the ASCII
inputs the program admits (the character allowlist rejects everything
non-ASCII before any other string operation matters).
-/

/-- JS `String.prototype.split(c)` at the character-list level: split on every
occurrence of `c`, keeping empty pieces (`"".split(c) == [""]`). -/
def jsSplitChars (c : Char) : List Char → List (List Char)
  | [] => [[]]
  | x :: xs =>
    match jsSplitChars c xs with
    | [] => [[x]]
    | y :: ys => if x = c then [] :: y :: ys else (x :: y) :: ys

/-- JS `s.split(c)` for a single-character separator. -/
def jsSplit (s : String) (c : Char) : List String :=
  (jsSplitChars c s.data).map String.mk

/-- JS `Array.prototype.join(sep)`. -/
def jsJoin (sep : String) : List String → String
  | [] => ""
  | [t] => t
  | t :: ts => t ++ sep ++ jsJoin sep ts

/-- Index of the first occurrence of `c`, if any. -/
def firstIdxOf (c : Char) : List Char → Option Nat
  | [] => none
  | x :: xs => if x = c then some 0 else (firstIdxOf c xs).map (· + 1)

/-- Index of the last occurrence of `c`, if any. -/
def lastIdxOf (c : Char) : List Char → Option Nat
  | [] => none
  | x :: xs =>
    match lastIdxOf c xs with
    | some i => some (i + 1)
    | none => if x = c then some 0 else none

/-- JS `s.indexOf(c)`: first index of `c` in `s`, or `-1`. -/
def jsIndexOfChar (s : String) (c : Char) : Int :=
  match firstIdxOf c s.data with
  | some i => (i : Int)
  | none => -1

/-- JS `s.lastIndexOf(c)`: last index of `c` in `s`, or `-1`. -/
def jsLastIndexOf (s : String) (c : Char) : Int :=
  match lastIdxOf c s.data with
  | some i => (i : Int)
  | none => -1

/-- JS `s.slice(a, b)`: characters from `a` (inclusive) to `b` (exclusive),
with negative arguments counting from the end and out-of-range arguments
clamped. -/
def jsSlice (s : String) (a b : Int) : String :=
  let n : Int := s.data.length
  let lo : Int := if a < 0 then max (n + a) 0 else min a n
  let hi : Int := if b < 0 then max (n + b) 0 else min b n
  if lo < hi then String.mk ((s.data.drop lo.toNat).take (hi - lo).toNat) else ""

/-- JS `s.substr(start, len)`: `len` characters starting at `start`; a
non-positive `len` yields the empty string. -/
def jsSubstr (s : String) (start len : Int) : String :=
  let n : Int := s.data.length
  let b : Int := if start < 0 then max (n + start) 0 else start
  if len ≤ 0 then "" else String.mk ((s.data.drop b.toNat).take len.toNat)

/-- Does `pat` occur as a contiguous segment of the list? -/
def containsSeg (pat : List Char) : List Char → Bool
  | [] => pat.isEmpty
  | x :: xs => pat.isPrefixOf (x :: xs) || containsSeg pat xs

/-- JS `s.includes(pat)`: substring containment. -/
def jsIncludes (s pat : String) : Bool :=
  containsSeg pat.data s.data

/-- JS `arr[i]` interpolated into a template literal: a missing element is
`undefined`, which stringifies to `"undefined"`. -/
def jsIndexStr (l : List String) (i : Nat) : String :=
  l.getD i "undefined"

/-- JS `x || 1` interpolated into a template literal, for
`x : String | undefined`: `undefined` and the empty string are falsy, so both
yield `"1"`. -/
def jsOrOne : Option String → String
  | none => "1"
  | some s => if s = "" then "1" else s

/-- JS `s.replace(/^0+/, "")`: strip leading zeros. -/
def stripLeadingZeros (s : String) : String :=
  String.mk (s.data.dropWhile (· = '0'))

/-- JS `s.replace(/:\*$/, "")`: drop a trailing `:*` if present. -/
def stripColonStarSuffix (s : String) : String :=
  if s.endsWith ":*" then s.dropRight 2 else s

/-- JS `s.replace(/c/g, rep)`: replace every occurrence of the character `c`
by `rep`. -/
def jsReplaceAllChar (s : String) (c : Char) (rep : String) : String :=
  String.intercalate rep (jsSplit s c)

/-- JS `s.replace(pat, rep)` for a plain string pattern: replace the first
occurrence only. -/
def jsReplaceFirst (s pat rep : String) : String :=
  match s.splitOn pat with
  | [] => s
  | x :: xs => if xs = [] then s else x ++ rep ++ String.intercalate pat xs

/-- JS `s.trim()` restricted to ASCII whitespace (the allowlist makes the
exotic Unicode whitespace JS would also strip unreachable in accepted
inputs). -/
def isJsWhitespace (c : Char) : Bool :=
  c = ' ' ∨ c = '\t' ∨ c = '\n' ∨ c = '\r' ∨ c = '\x0b' ∨ c = '\x0c'

/-- JS `text.trim()`. -/
def jsTrim (s : String) : String :=
  String.mk (((s.data.dropWhile isJsWhitespace).reverse.dropWhile isJsWhitespace).reverse)

/-- One character of the allowlist `/^[a-zA-Z0-9:\/+=,.@_*#\-]*$/` from the
constructor. -/
def isAllowedChar (c : Char) : Bool :=
  c.isAlpha ∨ c.isDigit ∨ c = ':' ∨ c = '/' ∨ c = '+' ∨ c = '=' ∨ c = ',' ∨
    c = '.' ∨ c = '@' ∨ c = '_' ∨ c = '*' ∨ c = '#' ∨ c = '-'

/-- One character of the region pattern `/^[a-z0-9-]*$/`. -/
def isRegionChar (c : Char) : Bool :=
  c.isLower ∨ c.isDigit ∨ c = '-'

/-- The distinct failure modes of the constructor and of `consoleLink`,
named after the spec's error taxonomy; every constructor except the last
corresponds to one `throw Error(...)` site of `link2aws.js` (`TypeMismatch`
cannot arise in the embedding, whose inputs are always strings).
`inheritedPrototypeMember` is not a `throw` site of the program: it marks the
point where a property lookup left the authored template table through
JavaScript's prototype chain and the continuation operates on an inherited
built-in member instead of an authored entry — calling it (returning host
strings, objects or `undefined`), tripping a `caller`/`arguments` poison-pill
`TypeError`, failing with a `TypeError`/`SyntaxError` on a non-callable or
string-coerced member, or reading a host-version-dependent property set.
The embedding delimits those continuations with this outcome rather than
modelling the host object machinery further. -/
inductive ArnError where
  | tooLong
  | invalidCharacters
  | badNumberOfTokens
  | invalidRegion
  | notAnArn
  | unsupportedPartition
  | unknownService
  | unsupportedResourceType
  | inheritedPrototypeMember
  deriving DecidableEq, Repr

/-- The fields an `ARN` instance carries after a successful construction.
`pfx` embeds the JS field `this.prefix` (that word is unusable as a Lean
field name). -/
structure ARN where
  arn : String
  pfx : String
  partition : String
  service : String
  region : String
  account : String
  resource_type : String
  resource : String
  resource_revision : String
  hasPath : Bool
  deriving DecidableEq, Repr

/-- The `string` getter: canonical re-serialization from the stored fields
(`!this.resource_type` in JS is truthiness, i.e. the empty-string test). -/
def ARN.string (a : ARN) : String :=
  if a.resource_type = "" then
    a.pfx ++ ":" ++ a.partition ++ ":" ++ a.service ++ ":" ++ a.region ++ ":" ++
      a.account ++ ":" ++ a.resource
  else if a.hasPath then
    if a.resource_revision ≠ "" then
      a.pfx ++ ":" ++ a.partition ++ ":" ++ a.service ++ ":" ++ a.region ++ ":" ++
        a.account ++ ":" ++ a.resource_type ++ "/" ++ a.resource ++ ":" ++ a.resource_revision
    else
      a.pfx ++ ":" ++ a.partition ++ ":" ++ a.service ++ ":" ++ a.region ++ ":" ++
        a.account ++ ":" ++ a.resource_type ++ "/" ++ a.resource
  else
    a.pfx ++ ":" ++ a.partition ++ ":" ++ a.service ++ ":" ++ a.region ++ ":" ++
      a.account ++ ":" ++ a.resource_type ++ ":" ++ a.resource

/-- The `console` getter: partition to console hostname, throwing on any
partition outside the fixed 3-entry set. -/
def ARN.console (a : ARN) : Except ArnError String :=
  match a.partition with
  | "aws" => .ok "console.aws.amazon.com"
  | "aws-us-gov" => .ok "console.amazonaws-us-gov.com"
  | "aws-cn" => .ok "console.amazonaws.cn"
  | _ => .error .unsupportedPartition

/-- The `qualifiers` getter: `this.resource.split(':')`. -/
def ARN.qualifiers (a : ARN) : List String :=
  jsSplit a.resource ':'

/-- The `pathAllButLast` getter:
`this.resource.substr(0, this.resource.lastIndexOf('/'))`. -/
def ARN.pathAllButLast (a : ARN) : String :=
  jsSubstr a.resource 0 (jsLastIndexOf a.resource '/')

/-- The `pathLast` getter:
`this.resource.substr(this.resource.lastIndexOf('/') + 1, this.resource.length)`. -/
def ARN.pathLast (a : ARN) : String :=
  jsSubstr a.resource (jsLastIndexOf a.resource '/' + 1) (a.resource.data.length : Int)

/-- A link builder from the template table: JS functions closed over the
instance become functions of the `ARN`; they may throw (via the `console`
getter) and may return `null` (`none`). -/
abbrev LinkTemplate := ARN → Except ArnError (Option String)
def linkTemplates : List (String × List (String × Option LinkTemplate)) := [
  ("a4b", [  -- Alexa for Business
    ("address-book", none),
    ("conference-provider", none),
    ("contact", none),
    ("device", none),
    ("network-profile", none),
    ("profile", none),
    ("room", none),
    ("schedule", none),
    ("skill-group", none),
    ("user", none),
  ]),
  ("access-analyzer", [  -- IAM Access Analyzer
    ("analyzer", some (fun a => do
      let c ← a.console
      pure (some s!"https://{a.region}.{c}/access-analyzer/home?region={a.region}#/analyzer/{a.resource}"))),
  ]),
  ("acm", [  -- AWS Certificate Manager
    ("certificate", some (fun a => do
      let c ← a.console
      pure (some s!"https://{c}/acm/home?region={a.region}#/?id={a.resource}"))),
  ]),
  ("acm-pca", [  -- AWS Certificate Manager Private Certificate Authority
    ("certificate-authority", none),
  ]),
  ("amplify", [  -- AWS Amplify
    ("apps", some (fun a =>
      if jsIncludes a.resource "/jobs/" then do
        let c ← a.console
        let resourceSplit := jsSplit a.resource '/'
        let appID := jsIndexStr resourceSplit 0
        let branch := jsIndexStr resourceSplit 2
        let job := stripLeadingZeros (jsIndexStr resourceSplit (resourceSplit.length - 1))
        pure (some s!"https://{a.region}.{c}/amplify/home?region={a.region}#/{appID}/{branch}/{job}")
      else pure none)),
  ]),
  ("apigateway", [  -- Manage Amazon API Gateway
    ("", none),
  ]),
  ("appconfig", [  -- AWS AppConfig
    ("application", none),
    ("deploymentstrategy", none),
  ]),
  ("appflow", [  -- Amazon AppFlow
    ("connectorprofile", none),
    ("flow", none),
  ]),
  ("appmesh", [  -- AWS App Mesh
    ("mesh", none),
  ]),
  ("appmesh-preview", [  -- AWS App Mesh Preview
    ("mesh", none),
  ]),
  ("appstream", [  -- Amazon AppStream 2.0
    ("fleet", none),
    ("image", none),
    ("image-builder", none),
    ("stack", none),
  ]),
  ("appsync", [  -- AWS AppSync
    ("apis", none),
  ]),
  ("artifact", [  -- AWS Artifact
    ("agreement", none),
    ("customer-agreement", none),
    ("report-package", none),
  ]),
  ("athena", [  -- Amazon Athena
    ("datacatalog", none),
    ("workgroup", none),
  ]),
  ("autoscaling", [  -- Amazon EC2 Auto Scaling
    ("autoScalingGroup", some (fun a => do
      let groupName := jsIndexStr (jsSplit a.resource '/') 1
      let c ← a.console
      pure (some s!"https://{a.region}.{c}/ec2/home?region={a.region}#AutoScalingGroupDetails:id={groupName};view=details"))),
    ("launchConfiguration", none),
  ]),
  ("aws-marketplace", [  -- AWS Marketplace Catalog
  ]),
  ("backup", [  -- AWS Backup
    ("backup-plan", none),
    ("backup-vault", some (fun a => do
      let c ← a.console
      pure (some s!"https://{c}/backup/home?region={a.region}#/backupvaults/details/{a.resource}"))),
  ]),
  ("batch", [  -- AWS Batch
    ("job-definition", none),
    ("job-queue", none),
  ]),
  ("budgets", [  -- AWS Budget Service
    ("budget", none),
  ]),
  ("cassandra", [  -- Amazon Keyspaces (for Apache Cassandra)
    ("", none),
  ]),
  ("catalog", [  -- AWS Service Catalog
    ("portfolio", none),
    ("product", none),
  ]),
  ("chatbot", [  -- AWS Chatbot
  ]),
  ("chime", [  -- Amazon Chime
    ("meeting", none),
  ]),
  ("cloud9", [  -- AWS Cloud9
    ("environment", none),
  ]),
  ("clouddirectory", [  -- Amazon Cloud Directory
    ("directory", none),
    ("schema", none),
  ]),
  ("cloudformation", [  -- AWS CloudFormation
    ("changeSet", none),
    ("stack", none),
    ("stackset", none),
  ]),
  ("cloudfront", [  -- Amazon CloudFront
    ("distribution", some (fun a => do
      let c ← a.console
      pure (some s!"https://{c}/cloudfront/v4/home#/distributions/{a.resource}"))),
    ("origin-access-identity", none),
    ("streaming-distribution", none),
  ]),
  ("cloudhsm", [  -- AWS CloudHSM
    ("backup", none),
    ("cluster", none),
  ]),
  ("cloudsearch", [  -- Amazon CloudSearch
    ("domain", none),
  ]),
  ("cloudtrail", [  -- AWS CloudTrail
    ("trail", none),
  ]),
  ("cloudwatch", [  -- Amazon CloudWatch
    ("alarm", none),
    ("dashboard", none),
    ("insight-rule", none),
  ]),
  ("codeartifact", [  -- AWS CodeArtifact
    ("domain", none),
    ("package", none),
    ("repository", none),
  ]),
  ("codebuild", [  -- AWS CodeBuild
    ("build", none),
    ("project", none),
    ("report", none),
    ("report-group", none),
  ]),
  ("codecommit", [  -- Amazon CodeGuru Reviewer
  ]),
  ("codedeploy", [  -- AWS CodeDeploy
    ("application", none),
    ("deploymentconfig", none),
    ("deploymentgroup", none),
    ("instance", none),
  ]),
  ("codeguru-profiler", [  -- Amazon CodeGuru Profiler
    ("profilingGroup", none),
  ]),
  ("codeguru-reviewer", [  -- Amazon CodeGuru Reviewer
    (".+", none),
    ("association", none),
  ]),
  ("codepipeline", [  -- AWS CodePipeline
    ("", some (fun a => do
      let c ← a.console
      pure (some s!"https://{a.region}.{c}/codesuite/codepipeline/pipelines/{a.resource}/view?region={a.region}"))),
    ("actiontype", none),
    ("webhook", none),
  ]),
  ("codestar", [  -- AWS CodeStar
    ("project", none),
  ]),
  ("codestar-connections", [  -- AWS CodeStar Connections
    ("connection", none),
  ]),
  ("codestar-notifications", [  -- AWS CodeStar Notifications
    ("notificationrule", none),
  ]),
  ("cognito-identity", [  -- Amazon Cognito Identity
    ("identitypool", none),
  ]),
  ("cognito-idp", [  -- Amazon Cognito User Pools
    ("userpool", none),
  ]),
  ("cognito-sync", [  -- Amazon Cognito Sync
    ("identitypool", none),
  ]),
  ("comprehend", [  -- Amazon Comprehend
    ("document-classifier", none),
    ("document-classifier-endpoint", none),
    ("entity-recognizer", none),
  ]),
  ("config", [  -- AWS Config
    ("aggregation-authorization", none),
    ("config-aggregator", none),
    ("config-rule", none),
    ("conformance-pack", none),
    ("organization-config-rule", none),
    ("organization-conformance-pack", none),
    ("remediation-configuration", none),
  ]),
  ("connect", [  -- Amazon Connect
    ("instance", none),
  ]),
  ("cur", [  -- AWS Cost and Usage Report
    ("definition", none),
  ]),
  ("dataexchange", [  -- AWS Data Exchange
    ("data-sets", none),
    ("jobs", none),
  ]),
  ("datasync", [  -- DataSync
    ("agent", none),
    ("location", none),
    ("task", none),
  ]),
  ("dax", [  -- Amazon DynamoDB Accelerator (DAX)
    ("cache", none),
  ]),
  ("deepcomposer", [  -- AWS DeepComposer
    ("audio", none),
    ("composition", none),
    ("model", none),
  ]),
  ("deeplens", [  -- AWS DeepLens
    ("device", none),
    ("model", none),
    ("project", none),
  ]),
  ("deepracer", [  -- AWS DeepRacer
    (" evaluation_job", none),
    ("leaderboard", none),
    ("leaderboard_evaluation_job", none),
    ("model", none),
    ("track", none),
    ("training_job", none),
  ]),
  ("detective", [  -- Amazon Detective
    ("graph", none),
  ]),
  ("devicefarm", [  -- AWS Device Farm
    ("artifact", none),
    ("device", none),
    ("deviceinstance", none),
    ("devicepool", none),
    ("instanceprofile", none),
    ("job", none),
    ("networkprofile", none),
    ("project", none),
    ("run", none),
    ("sample", none),
    ("session", none),
    ("suite", none),
    ("test", none),
    ("testgrid-project", none),
    ("testgrid-session", none),
    ("upload", none),
    ("vpceconfiguration", none),
  ]),
  ("directconnect", [  -- AWS Direct Connect
    ("dx-gateway", none),
    ("dxcon", none),
    ("dxlag", none),
    ("dxvif", none),
  ]),
  ("dlm", [  -- Amazon Data Lifecycle Manager
    ("policy", none),
  ]),
  ("dms", [  -- AWS Database Migration Service
    ("cert", none),
    ("endpoint", none),
    ("es", none),
    ("rep", none),
    ("subgrp", none),
    ("task", none),
  ]),
  ("ds", [  -- AWS Directory Service
    ("directory", none),
  ]),
  ("dynamodb", [  -- Amazon DynamoDB
    ("global-table", none),
    ("table", some (fun a => do
      let c ← a.console
      pure (some s!"https://{a.region}.{c}/dynamodbv2/home?region={a.region}#table?name={a.resource}"))),
  ]),
  ("ec2", [  -- AWS Systems Manager
    ("capacity-reservation", none),
    ("client-vpn-endpoint", none),
    ("customer-gateway", none),
    ("dedicated-host", none),
    ("dhcp-options", none),
    ("elastic-gpu", none),
    ("fpga-image", none),
    ("image", none),
    ("instance", some (fun a => do
      let c ← a.console
      pure (some s!"https://{a.region}.{c}/ec2/v2/home"))),
    ("internet-gateway", none),
    ("key-pair", none),
    ("launch-template", none),
    ("local-gateway", none),
    ("local-gateway-route-table", none),
    ("local-gateway-route-table-virtual-interface-group-association", none),
    ("local-gateway-route-table-vpc-association", none),
    ("local-gateway-virtual-interface", none),
    ("local-gateway-virtual-interface-group", none),
    ("network-acl", none),
    ("network-interface", none),
    ("placement-group", none),
    ("reserved-instances", none),
    ("route-table", none),
    ("security-group", some (fun a => do
      let c ← a.console
      pure (some s!"https://{a.region}.{c}/vpc/home?region={a.region}#SecurityGroup:groupId={a.resource}"))),
    ("snapshot", none),
    ("spot-instances-request", none),
    ("subnet", some (fun a => do
      let c ← a.console
      pure (some s!"https://{a.region}.{c}/vpc/home?region={a.region}#SubnetDetails:subnetId={a.resource}"))),
    ("traffic-mirror-filter", none),
    ("traffic-mirror-filter-rule", none),
    ("traffic-mirror-session", none),
    ("traffic-mirror-target", none),
    ("transit-gateway", none),
    ("transit-gateway-attachment", none),
    ("transit-gateway-multicast-domain", none),
    ("transit-gateway-route-table", none),
    ("volume", none),
    ("vpc", some (fun a => do
      let c ← a.console
      pure (some s!"https://{a.region}.{c}/vpc/home?region={a.region}#VpcDetails:VpcId={a.resource}"))),
    ("vpc-endpoint", none),
    ("vpc-endpoint-service", none),
    ("vpc-flow-log", none),
    ("vpc-peering-connection", none),
    ("vpn-connection", none),
    ("vpn-gateway", none),
  ]),
  ("ecr", [  -- Amazon Elastic Container Registry
    ("repository", none),
  ]),
  ("ecs", [  -- Amazon Elastic Container Service
    ("cluster", some (fun a => do
      let c ← a.console
      pure (some s!"https://{a.region}.{c}/ecs/v2/clusters/{a.resource}?region={a.region}"))),
    ("container-instance", none),
    ("service", some (fun a => do
      let c ← a.console
      pure (some s!"https://{a.region}.{c}/ecs/v2/clusters/{a.pathAllButLast}/services/{a.pathLast}?region={a.region}"))),
    ("task", some (fun a => do
      let c ← a.console
      pure (some s!"https://{a.region}.{c}/ecs/v2/clusters/{a.pathAllButLast}/tasks/{a.pathLast}?region={a.region}"))),
    ("task-definition", some (fun a => do
      let c ← a.console
      pure (some s!"https://{a.region}.{c}/ecs/v2/task-definitions/{a.resource}/{a.resource_revision}?region={a.region}"))),
    ("task-set", none),
  ]),
  ("eks", [  -- Amazon Elastic Container Service for Kubernetes
    ("cluster", some (fun a => do
      let c ← a.console
      pure (some s!"https://{c}/eks/home?region={a.region}#/clusters/{a.resource}"))),
    ("fargateprofile", none),
    ("nodegroup", some (fun a => do
      let arr := jsSplit a.resource '/'
      let clusterName := jsIndexStr arr 0
      let nodegroupName := jsIndexStr arr 1
      let c ← a.console
      pure (some s!"https://{c}/eks/home?region={a.region}#/clusters/{clusterName}/nodegroups/{nodegroupName}"))),
  ]),
  ("elastic-inference", [  -- Amazon Elastic Inference
    ("elastic-inference-accelerator", none),
  ]),
  ("elasticbeanstalk", [  -- AWS Elastic Beanstalk
    ("application", none),
    ("applicationversion", none),
    ("configurationtemplate", none),
    ("environment", none),
    ("platform", none),
    ("solutionstack", none),
  ]),
  ("elasticfilesystem", [  -- Amazon Elastic File System
    ("access-point", none),
    ("file-system", none),
  ]),
  ("elasticloadbalancing", [  -- AWS WAF V2
    ("listener", none),
    ("listener-rule", none),
    ("loadbalancer", none),
    ("targetgroup", none),
  ]),
  ("elasticmapreduce", [  -- Amazon Elastic MapReduce
    ("cluster", none),
    ("editor", none),
  ]),
  ("elastictranscoder", [  -- Amazon Elastic Transcoder
    ("job", none),
    ("pipeline", none),
    ("preset", none),
  ]),
  ("es", [  -- Amazon Elasticsearch Service
    ("domain", none),
  ]),
  ("events", [  -- Amazon EventBridge
    ("event-bus", none),
    ("event-source", none),
    ("rule", none),
  ]),
  ("execute-api", [  -- Amazon API Gateway
  ]),
  ("firehose", [  -- Amazon Kinesis Firehose
    ("deliverystream", some (fun a => do
      let c ← a.console
      pure (some s!"https://{c}/firehose/home?region={a.region}#/details/{a.resource}/monitoring"))),
  ]),
  ("fms", [  -- AWS Firewall Manager
    ("policy", none),
  ]),
  ("forecast", [  -- Amazon Forecast
    ("algorithm", none),
    ("dataset", none),
    ("dataset-group", none),
    ("dataset-import-job", none),
    ("forecast", none),
    ("forecast-export-job", none),
    ("predictor", none),
  ]),
  ("freertos", [  -- Amazon FreeRTOS
    ("configuration", none),
  ]),
  ("fsx", [  -- Amazon FSx
    ("backup", none),
    ("file-system", none),
    ("task", none),
  ]),
  ("gamelift", [  -- Amazon GameLift
    ("alias", none),
    ("build", none),
    ("fleet", none),
    ("gamesessionqueue", none),
    ("matchmakingconfiguration", none),
    ("matchmakingruleset", none),
    ("script", none),
  ]),
  ("glacier", [  -- Amazon Glacier
    ("vaults", none),
  ]),
  ("globalaccelerator", [  -- AWS Global Accelerator
    ("accelerator", none),
  ]),
  ("glue", [  -- AWS Glue
    ("catalog", none),
    ("connection", none),
    ("crawler", none),
    ("database", none),
    ("devendpoint", none),
    ("job", none),
    ("mlTransform", none),
    ("table", none),
    ("tableVersion", none),
    ("trigger", none),
    ("userDefinedFunction", none),
    ("workflow", none),
  ]),
  ("greengrass", [  -- AWS IoT Greengrass
    ("", none),
  ]),
  ("groundstation", [  -- AWS Ground Station
    ("config", none),
    ("contact", none),
    ("dataflow-endpoint-group", none),
    ("groundstation", none),
    ("mission-profile", none),
    ("satellite", none),
  ]),
  ("guardduty", [  -- Amazon GuardDuty
    ("detector", none),
  ]),
  ("health", [  -- AWS Health APIs and Notifications
    ("event", none),
  ]),
  ("honeycode", [  -- Amazon Honeycode
    ("screen", none),
    ("screen-automation", none),
  ]),
  ("iam", [  -- AWS Security Token Service
    ("access-report", none),
    ("assumed-role", none),
    ("federated-user", none),
    ("group", some (fun a => do
      let c ← a.console
      pure (some s!"https://{c}/iamv2/home#/groups/details/{a.pathLast}"))),
    ("instance-profile", none),
    ("mfa", none),
    ("oidc-provider", some (fun a => do
      let c ← a.console
      pure (some s!"https://{c}/iam/home?#/providers/{a.string}"))),
    ("policy", some (fun a => do
      let c ← a.console
      pure (some s!"https://{c}/iam/home?#/policies/{a.string}"))),
    ("role", some (fun a => do
      let c ← a.console
      pure (some s!"https://{c}/iam/home?#/roles/{a.pathLast}"))),
    ("saml-provider", none),
    ("server-certificate", none),
    ("sms-mfa", none),
    ("user", some (fun a => do
      let c ← a.console
      pure (some s!"https://{c}/iam/home?#/users/{a.resource}"))),
  ]),
  ("imagebuilder", [  -- Amazon EC2 Image Builder
    ("component", none),
    ("distribution-configuration", none),
    ("image", none),
    ("image-pipeline", none),
    ("image-recipe", none),
    ("infrastructure-configuration", none),
  ]),
  ("iot", [  -- AWS IoT
    ("authorizer", none),
    ("billinggroup", none),
    ("cacert", none),
    ("cert", none),
    ("client", none),
    ("dimension", none),
    ("index", none),
    ("job", none),
    ("mitigationaction", none),
    ("otaupdate", none),
    ("policy", none),
    ("provisioningtemplate", none),
    ("rolealias", none),
    ("rule", none),
    ("scheduledaudit", none),
    ("securityprofile", none),
    ("stream", none),
    ("thing", none),
    ("thinggroup", none),
    ("thingtype", none),
    ("topic", none),
    ("topicfilter", none),
    ("tunnel", none),
  ]),
  ("iot1click", [  -- AWS IoT 1-Click
    ("devices", none),
    ("projects", none),
  ]),
  ("iotanalytics", [  -- AWS IoT Analytics
    ("channel", none),
    ("dataset", none),
    ("datastore", none),
    ("pipeline", none),
  ]),
  ("iotevents", [  -- AWS IoT Events
    ("detectorModel", none),
    ("input", none),
  ]),
  ("iotsitewise", [  -- AWS IoT SiteWise
    ("access-policy", none),
    ("asset", none),
    ("asset-model", none),
    ("dashboard", none),
    ("gateway", none),
    ("portal", none),
    ("project", none),
  ]),
  ("iotthingsgraph", [  -- AWS IoT Things Graph
    ("Deployment", none),
    ("System", none),
    ("Workflow", none),
  ]),
  ("kafka", [  -- Amazon Managed Streaming for Kafka
    ("cluster", none),
  ]),
  ("kendra", [  -- Amazon Kendra
    ("index", none),
  ]),
  ("kinesis", [  -- Amazon Kinesis
    ("stream", none),
  ]),
  ("kinesisanalytics", [  -- Amazon Kinesis Analytics V2
    ("application", none),
  ]),
  ("kinesisvideo", [  -- Amazon Kinesis Video Streams
    ("channel", none),
    ("stream", none),
  ]),
  ("kms", [  -- AWS Key Management Service
    ("alias", none),
    ("key", some (fun a => do
      let c ← a.console
      pure (some s!"https://{c}/kms/home?region={a.region}#/kms/keys/{a.resource}"))),
  ]),
  ("lambda", [  -- AWS Lambda
    ("event-source-mapping", none),
    ("function", some (fun a => do
      let c ← a.console
      pure (some s!"https://{a.region}.{c}/lambda/home?region={a.region}#/functions/{a.resource}"))),
    ("layer", some (fun a => do
      let c ← a.console
      let q0 := jsIndexStr a.qualifiers 0
      let q1 := jsOrOne (a.qualifiers.get? 1)
      pure (some s!"https://{a.region}.{c}/lambda/home?region={a.region}#/layers/{q0}/versions/{q1}"))),
  ]),
  ("lex", [  -- Amazon Lex
    ("bot", none),
    ("bot-channel", none),
    ("intent", none),
    ("slottype", none),
  ]),
  ("license-manager", [  -- AWS License Manager
    ("license-configuration", none),
  ]),
  ("lightsail", [  -- Amazon Lightsail
    ("CloudFormationStackRecord", none),
    ("Disk", none),
    ("DiskSnapshot", none),
    ("Domain", none),
    ("ExportSnapshotRecord", none),
    ("Instance", none),
    ("InstanceSnapshot", none),
    ("KeyPair", none),
    ("LoadBalancer", none),
    ("LoadBalancerTlsCertificate", none),
    ("PeeredVpc", none),
    ("RelationalDatabase", none),
    ("RelationalDatabaseSnapshot", none),
    ("StaticIp", none),
  ]),
  ("logs", [  -- Amazon CloudWatch Logs
    ("log-group", some (fun a => do
      let c ← a.console
      let lg := jsReplaceAllChar (jsReplaceAllChar (stripColonStarSuffix a.resource) '#' "$2523") '/' "$252F"
      pure (some s!"https://{a.region}.{c}/cloudwatch/home?region={a.region}#logsV2:log-groups/log-group/{lg}"))),
  ]),
  ("machinelearning", [  -- Amazon Machine Learning
    ("batchprediction", none),
    ("datasource", none),
    ("evaluation", none),
    ("mlmodel", none),
  ]),
  ("macie2", [  -- Amazon Macie
    ("classification-job", none),
    ("custom-data-identifier", none),
    ("findings-filter", none),
    ("member", none),
  ]),
  ("managedblockchain", [  -- Amazon Managed Blockchain
    ("invitations", none),
    ("members", none),
    ("networks", none),
    ("nodes", none),
    ("proposals", none),
  ]),
  ("mediaconnect", [  -- AWS Elemental MediaConnect
    ("entitlement", none),
    ("flow", none),
    ("output", none),
    ("source", none),
  ]),
  ("mediaconvert", [  -- AWS Elemental MediaConvert
    ("certificates", none),
    ("jobTemplates", none),
    ("jobs", none),
    ("presets", none),
    ("queues", none),
  ]),
  ("medialive", [  -- AWS Elemental MediaLive
    ("channel", some (fun a => do
      let c ← a.console
      pure (some s!"https://{a.region}.{c}/medialive/home?region={a.region}#/channels/{a.resource}"))),
    ("input", none),
    ("inputDevice", none),
    ("inputSecurityGroup", none),
    ("multiplex", none),
    ("offering", none),
    ("reservation", none),
  ]),
  ("mediapackage", [  -- AWS Elemental MediaPackage
    ("channels", none),
    ("origin_endpoints", none),
  ]),
  ("mediapackage-vod", [  -- AWS Elemental MediaPackage VOD
    ("assets", none),
    ("packaging-configurations", none),
    ("packaging-groups", none),
  ]),
  ("mediastore", [  -- AWS Elemental MediaStore
    ("container", none),
  ]),
  ("mediatailor", [  -- AWS Elemental MediaTailor
    ("playbackConfiguration", none),
  ]),
  ("mgh", [  -- AWS Migration Hub
    ("progressUpdateStream", none),
  ]),
  ("mobilehub", [  -- AWS Mobile Hub
    ("project", none),
  ]),
  ("mobiletargeting", [  -- Amazon Pinpoint
    ("apps", none),
    ("recommenders", none),
    ("templates", none),
  ]),
  ("mq", [  -- Amazon MQ
    ("broker", none),
    ("configuration", none),
  ]),
  ("neptune-db", [  -- Amazon Neptune
  ]),
  ("networkmanager", [  -- Network Manager
    ("device", none),
    ("global-network", none),
    ("link", none),
    ("site", none),
  ]),
  ("opsworks", [  -- AWS OpsWorks
    ("stack", none),
  ]),
  ("organizations", [  -- AWS Organizations
    ("account", none),
    ("handshake", none),
    ("organization", none),
    ("ou", none),
    ("policy", none),
    ("root", none),
  ]),
  ("outposts", [  -- AWS Outposts
    ("order", none),
    ("outpost", none),
    ("site", none),
  ]),
  ("personalize", [  -- Amazon Personalize
    ("algorithm", none),
    ("campaign", none),
    ("dataset", none),
    ("dataset-group", none),
    ("dataset-import-job", none),
    ("event-tracker", none),
    ("feature-transformation", none),
    ("recipe", none),
    ("schema", none),
    ("solution", none),
  ]),
  ("pi", [  -- AWS Performance Insights
    ("metrics", none),
  ]),
  ("polly", [  -- Amazon Polly
    ("lexicon", none),
  ]),
  ("qldb", [  -- Amazon QLDB
    ("ledger", none),
    ("stream", none),
  ]),
  ("quicksight", [  -- Amazon QuickSight
    ("assignment", none),
    ("dashboard", none),
    ("group", none),
    ("template", none),
    ("user", none),
  ]),
  ("ram", [  -- AWS Resource Access Manager
    ("permission", none),
    ("resource-share", none),
    ("resource-share-invitation", none),
  ]),
  ("rds", [  -- Amazon RDS
    ("cluster", some (fun a => do
      let c ← a.console
      pure (some s!"https://{c}/rds/home?region={a.region}#database:id={a.resource};is-cluster=true"))),
    ("cluster-endpoint", none),
    ("cluster-pg", none),
    ("cluster-snapshot", none),
    ("db", some (fun a => do
      let c ← a.console
      pure (some s!"https://{c}/rds/home?region={a.region}#database:id={a.resource}"))),
    ("db-proxy", none),
    ("es", none),
    ("og", some (fun a => do
      let c ← a.console
      pure (some s!"https://{c}/rds/home?region={a.region}#option-group-details:option-group-name={a.resource}"))),
    ("pg", none),
    ("ri", none),
    ("secgrp", none),
    ("snapshot", some (fun a => do
      let c ← a.console
      pure (some s!"https://{c}/rds/home?region={a.region}#db-snapshot:id={a.resource}"))),
    ("subgrp", some (fun a => do
      let c ← a.console
      pure (some s!"https://{c}/rds/home?region={a.region}#db-subnet-group:id={a.resource}"))),
    ("target", none),
    ("target-group", none),
  ]),
  ("rds-db", [  -- Amazon RDS IAM Authentication
    ("dbuser", none),
  ]),
  ("redshift", [  -- Amazon Redshift
    ("cluster", none),
    ("dbgroup", none),
    ("dbname", none),
    ("dbuser", none),
    ("eventsubscription", none),
    ("hsmclientcertificate", none),
    ("hsmconfiguration", none),
    ("parametergroup", none),
    ("securitygroup", none),
    ("securitygroupingress", none),
    ("snapshot", none),
    ("snapshotcopygrant", none),
    ("snapshotschedule", none),
    ("subnetgroup", none),
  ]),
  ("rekognition", [  -- Amazon Rekognition
    ("collection", none),
    ("project", none),
    ("streamprocessor", none),
  ]),
  ("resource-groups", [  -- AWS Resource Groups
    ("group", none),
  ]),
  ("robomaker", [  -- AWS RoboMaker
    ("deployment-fleet", none),
    ("deployment-job", none),
    ("robot", none),
    ("robot-application", none),
    ("simulation-application", none),
    ("simulation-job", none),
    ("simulation-job-batch", none),
  ]),
  ("route53", [  -- Amazon Route 53
    ("change", none),
    ("delegationset", none),
    ("healthcheck", some (fun a => do
      let c ← a.console
      pure (some s!"https://{c}/route53/healthchecks/home"))),
    ("hostedzone", some (fun a => do
      let c ← a.console
      pure (some s!"https://{c}/route53/home?#resource-record-sets:{a.resource}"))),
    ("queryloggingconfig", none),
    ("trafficpolicy", some (fun a => do
      let c ← a.console
      pure (some s!"https://{c}/route53/trafficflow/home#/policy/{a.resource}"))),
    ("trafficpolicyinstance", some (fun a => do
      let c ← a.console
      pure (some s!"https://{c}/route53/trafficflow/home#/modify-records/edit/{a.resource}"))),
  ]),
  ("route53resolver", [  -- Amazon Route 53 Resolver
    ("resolver-endpoint", none),
    ("resolver-rule", none),
  ]),
  ("s3", [  -- Amazon S3
    ("", some (fun a => do
      let c ← a.console
      pure (some s!"https://s3.{c}/s3/buckets/{a.resource}"))),
    ("accesspoint", none),
    ("job", none),
  ]),
  ("sagemaker", [  -- Amazon SageMaker
    ("algorithm", none),
    ("app", none),
    ("automl-job", none),
    ("code-repository", none),
    ("compilation-job", none),
    ("domain", none),
    ("endpoint", none),
    ("endpoint-config", none),
    ("experiment", none),
    ("experiment-trial", none),
    ("experiment-trial-component", none),
    ("flow-definition", none),
    ("human-loop", none),
    ("human-task-ui", none),
    ("hyper-parameter-tuning-job", none),
    ("labeling-job", none),
    ("model", none),
    ("model-package", none),
    ("monitoring-schedule", none),
    ("notebook-instance", none),
    ("notebook-instance-lifecycle-config", none),
    ("processing-job", none),
    ("training-job", none),
    ("transform-job", none),
    ("user-profile", none),
    ("workforce", none),
    ("workteam", none),
  ]),
  ("savingsplans", [  -- AWS Savings Plans
    ("savingsplan", none),
  ]),
  ("schemas", [  -- Amazon EventBridge Schemas
    ("discoverer", none),
    ("registry", none),
    ("schema", none),
  ]),
  ("sdb", [  -- Amazon SimpleDB
    ("domain", none),
  ]),
  ("secretsmanager", [  -- AWS Secrets Manager
    ("secret", none),
  ]),
  ("securityhub", [  -- AWS Security Hub
    ("hub", none),
    ("product", none),
  ]),
  ("serverlessrepo", [  -- AWS Serverless Application Repository
    ("applications", none),
  ]),
  ("servicediscovery", [  -- AWS Cloud Map
    ("namespace", none),
    ("service", none),
  ]),
  ("servicequotas", [  -- Service Quotas
  ]),
  ("ses", [  -- Amazon SES
    ("configuration-set", none),
    ("custom-verification-email-template", none),
    ("dedicated-ip-pool", none),
    ("deliverability-test-report", none),
    ("identity", none),
    ("receipt-filter", none),
    ("receipt-rule-set", none),
    ("template", none),
  ]),
  ("shield", [  -- AWS Shield
    ("attack", none),
    ("protection", none),
  ]),
  ("signer", [  -- AWS Code Signing for Amazon FreeRTOS
    ("", none),
  ]),
  ("sns", [  -- Amazon SNS
    ("", some (fun a => do
      let c ← a.console
      pure (some s!"https://{c}/sns/v3/home?region={a.region}#/topic/{a.arn}"))),
  ]),
  ("sqs", [  -- Amazon SQS
    ("", some (fun a => do
      let c ← a.console
      pure (some s!"https://{a.region}.{c}/sqs/v2/home?region={a.region}#/queues/https%3A%2F%2Fsqs.{a.region}.amazonaws.com%2F{a.account}%2F{a.resource}"))),
  ]),
  ("ssm", [  -- AWS Systems Manager
    ("association", none),
    ("automation-definition", none),
    ("automation-execution", none),
    ("document", none),
    ("maintenancewindow", none),
    ("managed-instance", none),
    ("managed-instance-inventory", none),
    ("opsitem", none),
    ("parameter", none),
    ("patchbaseline", none),
    ("resource-data-sync", none),
    ("servicesetting", none),
    ("session", none),
    ("windowtarget", none),
    ("windowtask", none),
  ]),
  ("states", [  -- AWS Step Functions
    ("activity", none),
    ("execution", some (fun a => do
      let c ← a.console
      pure (some s!"https://{a.region}.{c}/states/home?region={a.region}#/v2/executions/details/{a.string}"))),
    ("stateMachine", some (fun a => do
      let c ← a.console
      pure (some s!"https://{a.region}.{c}/states/home?region={a.region}#/statemachines/view/{a.string}"))),
  ]),
  ("storagegateway", [  -- Amazon Storage Gateway
    ("gateway", none),
    ("share", none),
    ("tape", none),
  ]),
  ("sumerian", [  -- Amazon Sumerian
    ("project", none),
  ]),
  ("swf", [  -- Amazon Simple Workflow Service
    ("domain", none),
  ]),
  ("synthetics", [  -- Amazon CloudWatch Synthetics
    ("canary", none),
  ]),
  ("transfer", [  -- AWS Transfer for SFTP
    ("server", none),
    ("user", none),
  ]),
  ("trustedadvisor", [  -- AWS Trusted Advisor
    ("checks", none),
  ]),
  ("waf", [  -- AWS WAF
    ("bytematchset", none),
    ("geomatchset", none),
    ("ipset", none),
    ("ratebasedrule", none),
    ("regexmatch", none),
    ("regexpatternset", none),
    ("rule", none),
    ("rulegroup", none),
    ("sizeconstraintset", none),
    ("sqlinjectionset", none),
    ("webacl", none),
    ("xssmatchset", none),
  ]),
  ("waf-regional", [  -- AWS WAF Regional
    ("bytematchset", none),
    ("geomatchset", none),
    ("ipset", none),
    ("ratebasedrule", none),
    ("regexmatch", none),
    ("regexpatternset", none),
    ("rule", none),
    ("rulegroup", none),
    ("sizeconstraintset", none),
    ("sqlinjectionset", none),
    ("webacl", none),
    ("xssmatchset", none),
  ]),
  ("wafv2", [  -- AWS WAF V2
    ("global", some (fun a => do
      let resource := jsReplaceFirst a.resource "webacl/" ""
      let c ← a.console
      pure (some s!"https://{c}/wafv2/homev2/web-acl/{resource}/overview?region=global"))),
    ("regional", some (fun a => do
      let resource := jsReplaceFirst a.resource "webacl/" ""
      let c ← a.console
      pure (some s!"https://{c}/wafv2/homev2/web-acl/{resource}/overview?region={a.region}"))),
  ]),
  ("wellarchitected", [  -- AWS Well-Architected Tool
    ("workload", none),
  ]),
  ("worklink", [  -- Amazon WorkLink
    ("fleet", none),
  ]),
  ("workmail", [  -- Amazon WorkMail
    ("organization", none),
  ]),
  ("workmailmessageflow", [  -- Amazon WorkMail Message Flow
    ("message", none),
  ]),
  ("workspaces", [  -- Amazon WorkSpaces
    ("directory", none),
    ("workspace", none),
    ("workspacebundle", none),
    ("workspaceipgroup", none),
  ]),
  ("xray", [  -- AWS X-Ray
    ("group", none),
    ("sampling-rule", none),
  ]),
]

/-- Property names every JavaScript object literal inherits from
`Object.prototype`: for these keys `this._linkTemplates[key]` (and the inner
`serviceConsoleLinkTemplates[key]`) is defined even though the authored table
has no such entry. -/
def objectProtoKeys : List String :=
  ["constructor", "hasOwnProperty", "isPrototypeOf", "propertyIsEnumerable",
   "toLocaleString", "toString", "valueOf", "__defineGetter__",
   "__defineSetter__", "__lookupGetter__", "__lookupSetter__", "__proto__"]

/-- The string-keyed property names defined on every built-in method object:
its own `length` and `name` plus the members of `Function.prototype`
(`caller` and `arguments` among them being poison-pill accessors). -/
def functionMemberKeys : List String :=
  ["length", "name", "apply", "arguments", "bind", "call", "caller",
   "constructor", "toString"]

/-- The `length` (arity) own property of the `Object.prototype` method named
`s`: `0` for `toString`/`toLocaleString`/`valueOf`, `2` for the two define
helpers, `1` for the rest; the authored `!template` check treats the number
`0` as falsy. -/
def objectProtoMethodArity (s : String) : Nat :=
  if s = "toString" ∨ s = "toLocaleString" ∨ s = "valueOf" then 0
  else if s = "__defineGetter__" ∨ s = "__defineSetter__" then 2
  else 1

/-- The `consoleLink` getter: prefix check, then service lookup, then
resource-type lookup (`undefined` and authored `null` entries both throw),
then the template is invoked and its result returned verbatim (a `null`
return passes through). Both lookups are JavaScript property accesses, so a
key absent from the authored table but present on `Object.prototype` (see
`objectProtoKeys`) still yields a defined (and truthy) inherited member:
the code then proceeds with that member instead of throwing `UnknownService`.
The embedding follows that continuation as far as it stays inside the
authored code's own checks — the `typeof`/falsy test still throws
`UnsupportedResourceType` when the member's property named by
`resource_type` is `undefined`, is the number `0` (an arity-0 method's
`length`), or is `null` (`Object.prototype.__proto__`) — and delimits the
rest (calls into inherited built-ins, poison-pill accessors, and the Object
constructor's host-version-dependent static members) with
`inheritedPrototypeMember`. -/
def ARN.consoleLink (a : ARN) : Except ArnError (Option String) :=
  if a.pfx ≠ "arn" then
    .error .notAnArn
  else
    match linkTemplates.lookup a.service with
    | none =>
      if a.service ∈ objectProtoKeys then
        -- `this._linkTemplates[this.service]` finds the inherited member, so
        -- no UnknownService; the resource-type access runs on that member.
        if a.service = "constructor" then
          -- the member is the Object constructor, whose own static property
          -- set is host-version-dependent
          .error .inheritedPrototypeMember
        else if a.service = "__proto__" then
          -- the member is Object.prototype itself
          if a.resource_type = "__proto__" then
            -- Object.prototype.__proto__ is null: the authored falsy check throws
            .error .unsupportedResourceType
          else if a.resource_type ∈ objectProtoKeys then
            .error .inheritedPrototypeMember
          else
            -- the property is undefined: the authored typeof check throws
            .error .unsupportedResourceType
        else
          -- the member is one of the ten built-in Object.prototype methods
          if a.resource_type = "length" then
            if objectProtoMethodArity a.service = 0 then
              -- the arity 0 is falsy: the authored check throws
              .error .unsupportedResourceType
            else
              .error .inheritedPrototypeMember
          else if a.resource_type ∈ functionMemberKeys ∨
              a.resource_type ∈ objectProtoKeys then
            .error .inheritedPrototypeMember
          else
            -- the property is undefined: the authored typeof check throws
            .error .unsupportedResourceType
      else
        .error .unknownService
    | some serviceTemplates =>
      match serviceTemplates.lookup a.resource_type with
      | none =>
        if a.resource_type ∈ objectProtoKeys then
          -- the inner lookup likewise finds a truthy inherited member and the
          -- code calls it in place of an authored template
          .error .inheritedPrototypeMember
        else
          .error .unsupportedResourceType
      | some none => .error .unsupportedResourceType
      | some (some template) => template a

/-- Tail of the constructor: the region-format check (performed after the
shape dispatch) and the assembly of the instance fields. -/
def finishArn (text t0 t1 t2 t3 t4 rt res rrev : String) (hp : Bool) :
    Except ArnError ARN :=
  if t3 ≠ "" ∧ ¬ (t3.data.all isRegionChar) then .error .invalidRegion
  else .ok { arn := text, pfx := t0, partition := t1, service := t2, region := t3,
             account := t4, resource_type := rt, resource := res,
             resource_revision := rrev, hasPath := hp }

/-- The `ARN` constructor as a fallible function of the input string: trim,
length limit, character allowlist, colon tokenization (`splice(0, 6)` plus
rejoining any further tokens with `:`), the three-way resource-shape
dispatch, and the region check. -/
def parse (input : String) : Except ArnError ARN :=
  let text := jsTrim input
  if text.data.length > 2048 then
    .error .tooLong
  else if ¬ (text.data.all isAllowedChar) then
    .error .invalidCharacters
  else
    match jsSplit text ':' with
    | t0 :: t1 :: t2 :: t3 :: t4 :: t5 :: rest =>
      match rest with
      | [] =>
        if jsIndexOfChar t5 '/' > 0 then
          finishArn text t0 t1 t2 t3 t4
            (jsSlice t5 0 (jsIndexOfChar t5 '/'))
            (jsSlice t5 (jsIndexOfChar t5 '/' + 1) (t5.data.length : Int)) "" true
        else
          finishArn text t0 t1 t2 t3 t4 "" t5 "" false
      | _ :: _ =>
        if jsIndexOfChar t5 '/' > 0 then
          finishArn text t0 t1 t2 t3 t4
            (jsSlice t5 0 (jsIndexOfChar t5 '/'))
            (jsSlice t5 (jsIndexOfChar t5 '/' + 1) (t5.data.length : Int))
            (jsJoin ":" rest) true
        else
          finishArn text t0 t1 t2 t3 t4 t5 (jsJoin ":" rest) "" false
    | _ => .error .badNumberOfTokens

/-- Proof-side join at the character-list level, matching `jsJoin` on a
single-character separator. -/
def joinChars (c : Char) : List (List Char) → List Char
  | [] => []
  | [y] => y
  | y :: ys => y ++ c :: joinChars c ys

theorem jsSplitChars_ne_nil (c : Char) (l : List Char) : jsSplitChars c l ≠ [] := by
  cases l with
  | nil => simp [jsSplitChars]
  | cons x xs =>
    simp only [jsSplitChars]
    cases h : jsSplitChars c xs with
    | nil => simp
    | cons y ys =>
      by_cases hx : x = c <;> simp [hx]

theorem joinChars_jsSplitChars (c : Char) (l : List Char) :
    joinChars c (jsSplitChars c l) = l := by
  induction l with
  | nil => simp [jsSplitChars, joinChars]
  | cons x xs ih =>
    simp only [jsSplitChars]
    cases h : jsSplitChars c xs with
    | nil => exact absurd h (jsSplitChars_ne_nil c xs)
    | cons y ys =>
      rw [h] at ih
      by_cases hx : x = c
      · subst hx
        simp only [if_pos rfl]
        cases ys with
        | nil => simp [joinChars] at ih ⊢; simp [ih]
        | cons z zs => simp [joinChars] at ih ⊢; simp [ih]
      · simp only [if_neg hx]
        cases ys with
        | nil => simp [joinChars] at ih ⊢; simp [ih]
        | cons z zs => simp [joinChars] at ih ⊢; simp [ih]

theorem jsJoin_map_mk (c : Char) (ps : List (List Char)) :
    jsJoin (String.mk [c]) (ps.map String.mk) = String.mk (joinChars c ps) := by
  induction ps with
  | nil => rfl
  | cons y ys ih =>
    cases ys with
    | nil => rfl
    | cons z zs =>
      simp only [List.map, jsJoin, joinChars] at ih ⊢
      rw [ih]
      apply String.ext
      simp [String.data_append]

theorem jsJoin_jsSplit (s : String) (c : Char) :
    jsJoin (String.mk [c]) (jsSplit s c) = s := by
  rw [jsSplit, jsJoin_map_mk, joinChars_jsSplitChars]

theorem jsJoin_cons (sep t : String) (ts : List String) (h : ts ≠ []) :
    jsJoin sep (t :: ts) = t ++ sep ++ jsJoin sep ts := by
  cases ts with
  | nil => exact absurd rfl h
  | cons u us => rfl

theorem firstIdxOf_eq_none_of_not_mem {c : Char} {l : List Char} (h : c ∉ l) :
    firstIdxOf c l = none := by
  induction l with
  | nil => rfl
  | cons x xs ih =>
    simp only [List.mem_cons, not_or] at h
    have hxc : ¬ x = c := fun hx => h.1 hx.symm
    simp only [firstIdxOf, if_neg hxc, ih h.2]
    rfl

theorem firstIdxOf_spec {c : Char} {l : List Char} {k : Nat}
    (h : firstIdxOf c l = some k) :
    k < l.length ∧ l = l.take k ++ c :: l.drop (k + 1) := by
  induction l generalizing k with
  | nil => simp [firstIdxOf] at h
  | cons x xs ih =>
    simp only [firstIdxOf] at h
    by_cases hx : x = c
    · rw [if_pos hx] at h
      cases h
      subst hx
      simp
    · rw [if_neg hx] at h
      cases hk : firstIdxOf c xs with
      | none => rw [hk] at h; exact absurd h (by simp)
      | some j =>
        rw [hk] at h
        have hj : k = j + 1 := by
          cases h
          rfl
        subst hj
        obtain ⟨hlt, heq⟩ := ih hk
        constructor
        · simpa using Nat.succ_lt_succ hlt
        · simpa using heq

theorem lastIdxOf_eq_none_of_not_mem {c : Char} {l : List Char} (h : c ∉ l) :
    lastIdxOf c l = none := by
  induction l with
  | nil => rfl
  | cons x xs ih =>
    simp only [List.mem_cons, not_or] at h
    have hxc : ¬ x = c := fun hx => h.1 hx.symm
    simp only [lastIdxOf, ih h.2, if_neg hxc]

theorem jsIndexOfChar_of_firstIdxOf {s : String} {c : Char} {k : Nat}
    (h : firstIdxOf c s.data = some k) : jsIndexOfChar s c = (k : Int) := by
  simp [jsIndexOfChar, h]

theorem jsIndexOfChar_eq_neg_one {s : String} {c : Char}
    (h : firstIdxOf c s.data = none) : jsIndexOfChar s c = -1 := by
  simp [jsIndexOfChar, h]

theorem jsIndexOfChar_pos_elim {s : String} {c : Char}
    (h : jsIndexOfChar s c > 0) :
    ∃ k : Nat, 0 < k ∧ firstIdxOf c s.data = some k := by
  cases hk : firstIdxOf c s.data with
  | none => rw [jsIndexOfChar_eq_neg_one hk] at h; omega
  | some k =>
    refine ⟨k, ?_, rfl⟩
    rw [jsIndexOfChar_of_firstIdxOf hk] at h
    exact_mod_cast h

theorem jsSlice_take {s : String} {k : Nat} (hpos : 0 < k) (hle : k ≤ s.data.length) :
    jsSlice s 0 (k : Int) = String.mk (s.data.take k) := by
  simp only [jsSlice]
  rw [if_neg (by omega : ¬ (0 : Int) < 0), if_neg (by omega : ¬ (k : Int) < 0)]
  rw [min_eq_left (by exact_mod_cast Nat.zero_le _), min_eq_left (by exact_mod_cast hle)]
  rw [if_pos (by exact_mod_cast hpos)]
  congr 1

theorem jsSlice_drop {s : String} {k : Nat} (hle : k ≤ s.data.length) :
    jsSlice s (k : Int) (s.data.length : Int) = String.mk (s.data.drop k) := by
  simp only [jsSlice]
  rw [if_neg (by omega : ¬ (k : Int) < 0), if_neg (by omega : ¬ (s.data.length : Int) < 0)]
  rw [min_eq_left (by exact_mod_cast hle), min_self]
  by_cases hlt : k < s.data.length
  · rw [if_pos (by exact_mod_cast hlt)]
    congr 1
    have h1 : ((k : Int)).toNat = k := by omega
    have h2 : (((s.data.length : Int)) - (k : Int)).toNat = s.data.length - k := by omega
    rw [h1, h2]
    have h3 : s.data.length - k = (s.data.drop k).length := by
      rw [List.length_drop]
    rw [h3, List.take_length]
  · have hk : k = s.data.length := by omega
    rw [if_neg (by omega : ¬ ((k : Int)) < (s.data.length : Int))]
    subst hk
    apply String.ext
    simp [List.drop_length]

theorem slash_split_reassemble {t : String} (h : jsIndexOfChar t '/' > 0) :
    jsSlice t 0 (jsIndexOfChar t '/') ++ "/" ++
      jsSlice t (jsIndexOfChar t '/' + 1) (t.data.length : Int) = t ∧
    jsSlice t 0 (jsIndexOfChar t '/') ≠ "" := by
  obtain ⟨k, hkpos, hk⟩ := jsIndexOfChar_pos_elim h
  obtain ⟨hlt, heq⟩ := firstIdxOf_spec hk
  rw [jsIndexOfChar_of_firstIdxOf hk]
  have hcast : ((k : Int) + 1) = ((k + 1 : Nat) : Int) := by omega
  rw [hcast, jsSlice_take hkpos (by omega), jsSlice_drop (by omega)]
  constructor
  · apply String.ext
    simp only [String.data_append]
    conv_rhs => rw [heq]
    simp
  · intro hbad
    have hlen : (t.data.take k).length = 0 := by
      have := congrArg String.data hbad
      simp only at this
      rw [this]
      rfl
    rw [List.length_take] at hlen
    omega

theorem finishArn_eq_ok {text t0 t1 t2 t3 t4 rt res rrev : String} {hp : Bool} {a : ARN}
    (h : finishArn text t0 t1 t2 t3 t4 rt res rrev hp = .ok a) :
    a = ⟨text, t0, t1, t2, t3, t4, rt, res, rrev, hp⟩ := by
  unfold finishArn at h
  split at h
  · cases h
  · cases h
    rfl

theorem finishArn_isOk {text t0 t1 t2 t3 t4 rt res rrev : String} {hp : Bool}
    (hreg : t3.data.all isRegionChar = true) :
    (finishArn text t0 t1 t2 t3 t4 rt res rrev hp).isOk = true := by
  unfold finishArn
  rw [if_neg]
  · rfl
  · intro hbad
    exact hbad.2 hreg

theorem parse_ok_spec {x : String} {a : ARN} {t0 t1 t2 t3 t4 t5 : String} {rest : List String}
    (htoks : jsSplit (jsTrim x) ':' = t0 :: t1 :: t2 :: t3 :: t4 :: t5 :: rest)
    (h : parse x = .ok a) :
    a.arn = jsTrim x ∧ a.pfx = t0 ∧ a.partition = t1 ∧ a.service = t2 ∧
    a.region = t3 ∧ a.account = t4 ∧
    ((rest = [] ∧ jsIndexOfChar t5 '/' > 0 ∧
        a.resource_type = jsSlice t5 0 (jsIndexOfChar t5 '/') ∧
        a.resource = jsSlice t5 (jsIndexOfChar t5 '/' + 1) (t5.data.length : Int) ∧
        a.resource_revision = "" ∧ a.hasPath = true) ∨
      (rest = [] ∧ ¬ jsIndexOfChar t5 '/' > 0 ∧
        a.resource_type = "" ∧ a.resource = t5 ∧
        a.resource_revision = "" ∧ a.hasPath = false) ∨
      (rest ≠ [] ∧ jsIndexOfChar t5 '/' > 0 ∧
        a.resource_type = jsSlice t5 0 (jsIndexOfChar t5 '/') ∧
        a.resource = jsSlice t5 (jsIndexOfChar t5 '/' + 1) (t5.data.length : Int) ∧
        a.resource_revision = jsJoin ":" rest ∧ a.hasPath = true) ∨
      (rest ≠ [] ∧ ¬ jsIndexOfChar t5 '/' > 0 ∧
        a.resource_type = t5 ∧ a.resource = jsJoin ":" rest ∧
        a.resource_revision = "" ∧ a.hasPath = false)) := by
  simp only [parse] at h
  split at h
  · cases h
  split at h
  · cases h
  rw [htoks] at h
  cases rest with
  | nil =>
    simp only at h
    split at h
    case isTrue hslash =>
      rw [finishArn_eq_ok h]
      refine ⟨rfl, rfl, rfl, rfl, rfl, rfl, Or.inl ⟨rfl, hslash, rfl, rfl, rfl, rfl⟩⟩
    case isFalse hslash =>
      rw [finishArn_eq_ok h]
      exact ⟨rfl, rfl, rfl, rfl, rfl, rfl, Or.inr (Or.inl ⟨rfl, hslash, rfl, rfl, rfl, rfl⟩)⟩
  | cons r rs =>
    simp only at h
    split at h
    case isTrue hslash =>
      rw [finishArn_eq_ok h]
      exact ⟨rfl, rfl, rfl, rfl, rfl, rfl,
        Or.inr (Or.inr (Or.inl ⟨by simp, hslash, rfl, rfl, rfl, rfl⟩))⟩
    case isFalse hslash =>
      rw [finishArn_eq_ok h]
      exact ⟨rfl, rfl, rfl, rfl, rfl, rfl,
        Or.inr (Or.inr (Or.inr ⟨by simp, hslash, rfl, rfl, rfl, rfl⟩))⟩

theorem jsJoin_colon_split (s : String) : jsJoin ":" (jsSplit s ':') = s :=
  jsJoin_jsSplit s ':'

theorem data_slash : ("/" : String).data = ['/'] := rfl

theorem data_colon : (":" : String).data = [':'] := rfl

theorem parse_string_roundtrip {x : String} {a : ARN} {t0 t1 t2 t3 t4 t5 : String}
    {rest : List String}
    (htoks : jsSplit (jsTrim x) ':' = t0 :: t1 :: t2 :: t3 :: t4 :: t5 :: rest)
    (hside : rest ≠ [] →
      t5 ≠ "" ∧ (jsIndexOfChar t5 '/' > 0 → jsJoin ":" rest ≠ ""))
    (h : parse x = .ok a) :
    a.string = jsTrim x := by
  have hexp : jsTrim x = t0 ++ ":" ++ (t1 ++ ":" ++ (t2 ++ ":" ++ (t3 ++ ":" ++
      (t4 ++ ":" ++ jsJoin ":" (t5 :: rest))))) := by
    conv_lhs => rw [← jsJoin_colon_split (jsTrim x), htoks]
    rw [jsJoin_cons _ _ _ (by simp), jsJoin_cons _ _ _ (by simp),
      jsJoin_cons _ _ _ (by simp), jsJoin_cons _ _ _ (by simp),
      jsJoin_cons _ _ _ (by simp)]
  obtain ⟨harn, hp0, hp1, hp2, hp3, hp4, hcases⟩ := parse_ok_spec htoks h
  rcases hcases with ⟨hrest, hslash, hrt, hres, hrev, hhp⟩ |
    ⟨hrest, hslash, hrt, hres, hrev, hhp⟩ |
    ⟨hrest, hslash, hrt, hres, hrev, hhp⟩ |
    ⟨hrest, hslash, hrt, hres, hrev, hhp⟩
  · -- exactly 6 tokens, type/id form
    subst hrest
    obtain ⟨hre, hne⟩ := slash_split_reassemble hslash
    obtain ⟨k, hkpos, hk⟩ := jsIndexOfChar_pos_elim hslash
    obtain ⟨hlt, heq⟩ := firstIdxOf_spec hk
    have hidx := jsIndexOfChar_of_firstIdxOf hk
    have hcast : ((k : Int)) + 1 = (((k + 1 : Nat)) : Int) := by omega
    simp only [ARN.string, hp0, hp1, hp2, hp3, hp4, hrt, hres, hrev, hhp,
      if_neg hne, if_true, if_false]
    rw [if_neg (by simp)]
    rw [hexp, show jsJoin ":" [t5] = t5 from rfl]
    rw [hidx, hcast, jsSlice_take hkpos (Nat.le_of_lt hlt), jsSlice_drop (by omega)]
    apply String.ext
    simp only [String.data_append, data_slash, data_colon]
    conv_rhs => rw [heq]
    simp [List.append_assoc]
  · -- exactly 6 tokens, bare resource-id form
    subst hrest
    simp only [ARN.string, hp0, hp1, hp2, hp3, hp4, hrt, hres, hrev, hhp, if_pos rfl]
    rw [hexp, show jsJoin ":" [t5] = t5 from rfl]
    apply String.ext
    simp [String.data_append, data_colon, List.append_assoc]
  · -- 7+ tokens, type/id:revision form
    obtain ⟨hre, hne⟩ := slash_split_reassemble hslash
    obtain ⟨h5ne, hrevne⟩ := hside hrest
    obtain ⟨k, hkpos, hk⟩ := jsIndexOfChar_pos_elim hslash
    obtain ⟨hlt, heq⟩ := firstIdxOf_spec hk
    have hidx := jsIndexOfChar_of_firstIdxOf hk
    have hcast : ((k : Int)) + 1 = (((k + 1 : Nat)) : Int) := by omega
    simp only [ARN.string, hp0, hp1, hp2, hp3, hp4, hrt, hres, hrev, hhp,
      if_neg hne, if_true, if_false]
    rw [if_pos (hrevne hslash)]
    rw [hexp, jsJoin_cons _ _ _ hrest]
    rw [hidx, hcast, jsSlice_take hkpos (Nat.le_of_lt hlt), jsSlice_drop (by omega)]
    apply String.ext
    simp only [String.data_append, data_slash, data_colon]
    conv_rhs => rw [heq]
    simp [List.append_assoc]
  · -- 7+ tokens, type:id form
    obtain ⟨h5ne, hrevne⟩ := hside hrest
    simp only [ARN.string, hp0, hp1, hp2, hp3, hp4, hrt, hres, hrev, hhp,
      if_neg h5ne, if_true, if_false]
    rw [hexp, jsJoin_cons _ _ _ hrest]
    apply String.ext
    simp [String.data_append, data_colon, List.append_assoc]

/-- C1 (counterexample): the accepted input `"a:b:c:d:e::f"` (7 colon tokens
with an empty 6th token) re-serializes to `"a:b:c:d:e:f"`, which differs from
the original trimmed input, so `parse(x).string === x` does not hold for every
accepted `x`. -/
theorem c1_roundtrip_counterexample :
    (parse "a:b:c:d:e::f").map ARN.string = .ok "a:b:c:d:e:f" ∧
    "a:b:c:d:e:f" ≠ "a:b:c:d:e::f" :=
  ⟨rfl, by decide⟩

/-- C1 (amended): for every accepted input, the canonical re-serialization
equals the trimmed input, except when there are 7+ colon tokens and either
the 6th token is empty (its colon is dropped) or the 6th token has a `/`
after position 0 while the rejoined revision is empty (the trailing colon is
dropped). -/
theorem c1_roundtrip_amended {x : String} {a : ARN} {t0 t1 t2 t3 t4 t5 : String}
    {rest : List String}
    (htoks : jsSplit (jsTrim x) ':' = t0 :: t1 :: t2 :: t3 :: t4 :: t5 :: rest)
    (hside : rest ≠ [] →
      t5 ≠ "" ∧ (jsIndexOfChar t5 '/' > 0 → jsJoin ":" rest ≠ ""))
    (h : parse x = .ok a) :
    a.string = jsTrim x :=
  parse_string_roundtrip htoks hside h

/-- C1 (witness): the amended round-trip at the concrete accepted input
`"arn:aws:s3:::mybucket"`. -/
theorem c1_roundtrip_amended_witness :
    ARN.string ⟨"arn:aws:s3:::mybucket", "arn", "aws", "s3", "", "", "",
      "mybucket", "", false⟩ = jsTrim "arn:aws:s3:::mybucket" :=
  @c1_roundtrip_amended "arn:aws:s3:::mybucket"
    ⟨"arn:aws:s3:::mybucket", "arn", "aws", "s3", "", "", "", "mybucket", "", false⟩
    "arn" "aws" "s3" "" "" "mybucket" [] (by decide) (fun hc => absurd rfl hc) rfl

/-- C2: for the amplify `apps` ARN `"arn:aws:amplify:us-east-1:123456789012:apps/d1a2b3c4"`
(resource without `/jobs/`), the builder returns the failure marker `null` and
`consoleLink` passes it through as its result instead of throwing
`UnsupportedResourceType`. -/
theorem c2_amplify_null_passthrough :
    (parse "arn:aws:amplify:us-east-1:123456789012:apps/d1a2b3c4").bind
      ARN.consoleLink = .ok none :=
  rfl

/-- C3 (counterexample): `parse("arn:aws:s3:US WEST:1:bucket")` fails with
`InvalidCharacters` (the space is rejected by the character allowlist, which
runs before tokenization), not with `InvalidRegion`. -/
theorem c3_region_space_counterexample :
    parse "arn:aws:s3:US WEST:1:bucket" = .error .invalidCharacters ∧
    ArnError.invalidCharacters ≠ ArnError.invalidRegion :=
  ⟨rfl, by decide⟩

/-- C3 (amended): `parse("arn:aws:s3:US WEST:1:bucket")` fails, but with
`InvalidCharacters`; `InvalidRegion` is reached only for region fields built
from allowlisted characters, e.g. `parse("arn:aws:s3:US-WEST:1:bucket")`. -/
theorem c3_region_space_amended :
    parse "arn:aws:s3:US WEST:1:bucket" = .error .invalidCharacters ∧
    parse "arn:aws:s3:US-WEST:1:bucket" = .error .invalidRegion :=
  ⟨rfl, rfl⟩

/-- C4 (counterexample): for `"arn:badpartition:zzzservice:us-east-1:123:res"`
(unknown partition and unknown service), `consoleLink` fails with
`UnknownService`, not with `UnsupportedPartition`: the service lookup runs
first. -/
theorem c4_partition_order_counterexample :
    (parse "arn:badpartition:zzzservice:us-east-1:123:res").bind ARN.consoleLink =
      .error .unknownService ∧
    ArnError.unknownService ≠ ArnError.unsupportedPartition :=
  ⟨rfl, by decide⟩

/-- C4 (amended): for every ARN with prefix `"arn"`, an unsupported partition,
and a service that neither is an authored entry of the template table nor is
one of the property names inherited from `Object.prototype` (for inherited
names such as `toString` the lookup finds the inherited member instead and no
`UnknownService` is thrown), `consoleLink` fails with `UnknownService`; the
partition mapping is consulted only inside an invoked link template, never
before the service lookup. -/
theorem c4_unknown_service_before_partition {a : ARN}
    (hpfx : a.pfx = "arn")
    (_hpart : a.console = .error .unsupportedPartition)
    (hsvc : linkTemplates.lookup a.service = none)
    (hproto : a.service ∉ objectProtoKeys) :
    a.consoleLink = .error .unknownService := by
  unfold ARN.consoleLink
  rw [if_neg (by simp [hpfx]), hsvc]
  simp only [if_neg hproto]

/-- C4 (witness): the amended statement at the concrete parsed ARN of
`"arn:badpartition:zzzservice:us-east-1:123:res"`. -/
theorem c4_unknown_service_before_partition_witness :
    ARN.consoleLink ⟨"arn:badpartition:zzzservice:us-east-1:123:res", "arn",
      "badpartition", "zzzservice", "us-east-1", "123", "", "res", "", false⟩ =
      .error .unknownService :=
  c4_unknown_service_before_partition rfl rfl rfl (by decide)

/-- C5 (counterexample): for the accepted 6-token input `"arn:a:s:r:c:/x/y"`,
whose 6th token contains a `/` (at position 0), the parser does not split at
the first `/`: it yields resourceType `""`, resource `"/x/y"` and
hasPath `false` instead of resource `"x/y"` and hasPath `true`. -/
theorem c5_leading_slash_counterexample :
    (parse "arn:a:s:r:c:/x/y").map ARN.hasPath = .ok false ∧
    (parse "arn:a:s:r:c:/x/y").map ARN.resource = .ok "/x/y" ∧
    (parse "arn:a:s:r:c:/x/y").map ARN.resource_type = .ok "" ∧
    ("/x/y" : String) ≠ "x/y" ∧ false ≠ true :=
  ⟨rfl, rfl, rfl, by decide, by decide⟩

/-- C5 (amended): for every accepted input with exactly 6 colon tokens whose
6th token contains a `/` at a position after index 0, the parser splits at the
first `/`: resourceType is everything before it, resource is everything after
it (including any further slashes), and hasPath is true. -/
theorem c5_type_slash_id_amended {x : String} {a : ARN} {t0 t1 t2 t3 t4 t5 : String}
    (htoks : jsSplit (jsTrim x) ':' = [t0, t1, t2, t3, t4, t5])
    (hslash : jsIndexOfChar t5 '/' > 0)
    (h : parse x = .ok a) :
    a.resource_type = String.mk (t5.data.take (jsIndexOfChar t5 '/').toNat) ∧
    a.resource = String.mk (t5.data.drop ((jsIndexOfChar t5 '/').toNat + 1)) ∧
    a.hasPath = true := by
  obtain ⟨k, hkpos, hk⟩ := jsIndexOfChar_pos_elim hslash
  obtain ⟨hlt, _⟩ := firstIdxOf_spec hk
  have hidx := jsIndexOfChar_of_firstIdxOf hk
  have hcast : ((k : Int)) + 1 = (((k + 1 : Nat)) : Int) := by omega
  obtain ⟨_, _, _, _, _, _, hcases⟩ := parse_ok_spec htoks h
  rcases hcases with ⟨_, _, hrt, hres, _, hhp⟩ | ⟨_, hns, _, _, _, _⟩ |
    ⟨hne, _, _, _, _, _⟩ | ⟨hne, _, _, _, _, _⟩
  · refine ⟨?_, ?_, hhp⟩
    · rw [hrt, hidx, jsSlice_take hkpos (Nat.le_of_lt hlt)]
      simp [hidx]
    · rw [hres, hidx, hcast, jsSlice_drop (by omega)]
      simp [hidx]
  · exact absurd hslash hns
  · exact absurd rfl hne
  · exact absurd rfl hne

/-- C5 (witness): the amended split at the concrete input
`"arn:p:s:r:a:rtype/rid/extra"`. -/
theorem c5_type_slash_id_amended_witness :
    ARN.resource_type ⟨"arn:p:s:r:a:rtype/rid/extra", "arn", "p", "s", "r", "a",
        "rtype", "rid/extra", "", true⟩ =
      String.mk (("rtype/rid/extra" : String).data.take
        (jsIndexOfChar "rtype/rid/extra" '/').toNat) ∧
    ARN.resource ⟨"arn:p:s:r:a:rtype/rid/extra", "arn", "p", "s", "r", "a",
        "rtype", "rid/extra", "", true⟩ =
      String.mk (("rtype/rid/extra" : String).data.drop
        ((jsIndexOfChar "rtype/rid/extra" '/').toNat + 1)) ∧
    ARN.hasPath ⟨"arn:p:s:r:a:rtype/rid/extra", "arn", "p", "s", "r", "a",
        "rtype", "rid/extra", "", true⟩ = true :=
  @c5_type_slash_id_amended "arn:p:s:r:a:rtype/rid/extra"
    ⟨"arn:p:s:r:a:rtype/rid/extra", "arn", "p", "s", "r", "a", "rtype",
      "rid/extra", "", true⟩
    "arn" "p" "s" "r" "a" "rtype/rid/extra" (by decide) (by decide) rfl

/-- C6: for every accepted input with 7+ colon tokens whose 6th token contains
no `/`, the result has resourceType equal to the 6th token, resource equal to
all tokens from the 7th onward rejoined with `:`, and hasPath false. -/
theorem c6_type_colon_id {x : String} {a : ARN} {t0 t1 t2 t3 t4 t5 : String}
    {rest : List String}
    (htoks : jsSplit (jsTrim x) ':' = t0 :: t1 :: t2 :: t3 :: t4 :: t5 :: rest)
    (hrest : rest ≠ [])
    (hnoslash : '/' ∉ t5.data)
    (h : parse x = .ok a) :
    a.resource_type = t5 ∧ a.resource = jsJoin ":" rest ∧ a.hasPath = false := by
  have hns : ¬ jsIndexOfChar t5 '/' > 0 := by
    rw [jsIndexOfChar_eq_neg_one (firstIdxOf_eq_none_of_not_mem hnoslash)]
    omega
  obtain ⟨_, _, _, _, _, _, hcases⟩ := parse_ok_spec htoks h
  rcases hcases with ⟨hr, hsl, _, _, _, _⟩ | ⟨hr, _, _, _, _, _⟩ |
    ⟨_, hsl, _, _, _, _⟩ | ⟨_, _, hrt, hres, _, hhp⟩
  · exact absurd hsl hns
  · exact absurd hr hrest
  · exact absurd hsl hns
  · exact ⟨hrt, hres, hhp⟩

/-- C6 (witness): the type:id dispatch at the concrete input
`"arn:p:s:r:a:rtype:rid"`. -/
theorem c6_type_colon_id_witness :
    ARN.resource_type ⟨"arn:p:s:r:a:rtype:rid", "arn", "p", "s", "r", "a",
        "rtype", "rid", "", false⟩ = "rtype" ∧
    ARN.resource ⟨"arn:p:s:r:a:rtype:rid", "arn", "p", "s", "r", "a",
        "rtype", "rid", "", false⟩ = jsJoin ":" ["rid"] ∧
    ARN.hasPath ⟨"arn:p:s:r:a:rtype:rid", "arn", "p", "s", "r", "a",
        "rtype", "rid", "", false⟩ = false :=
  @c6_type_colon_id "arn:p:s:r:a:rtype:rid"
    ⟨"arn:p:s:r:a:rtype:rid", "arn", "p", "s", "r", "a", "rtype", "rid", "", false⟩
    "arn" "p" "s" "r" "a" "rtype" ["rid"] (by decide) (by decide) (by decide) rfl

/-- C7: `parse("arn:aws:s3:::abcdefgh1234").consoleLink` is exactly
`"https://s3.console.aws.amazon.com/s3/buckets/abcdefgh1234"`. -/
theorem c7_s3_console_link :
    (parse "arn:aws:s3:::abcdefgh1234").bind ARN.consoleLink =
      .ok (some "https://s3.console.aws.amazon.com/s3/buckets/abcdefgh1234") :=
  rfl

/-- C8: for every ARN whose resource contains no `/`, `pathLast` returns the
whole resource string and `pathAllButLast` returns the empty string. -/
theorem c8_path_accessors_no_slash {a : ARN} (h : '/' ∉ a.resource.data) :
    a.pathLast = a.resource ∧ a.pathAllButLast = "" := by
  have hnone := lastIdxOf_eq_none_of_not_mem h
  constructor
  · unfold ARN.pathLast jsLastIndexOf
    rw [hnone]
    simp only [jsSubstr]
    rw [if_neg (by omega : ¬ (-1 + 1 : Int) < 0)]
    by_cases hlen : a.resource.data.length = 0
    · rw [if_pos (by exact_mod_cast Nat.le_of_eq hlen)]
      apply String.ext
      simp [List.length_eq_zero.mp hlen]
    · rw [if_neg (by omega : ¬ ((a.resource.data.length : Int)) ≤ 0)]
      apply String.ext
      simp
  · unfold ARN.pathAllButLast jsLastIndexOf
    rw [hnone]
    simp only [jsSubstr]
    rw [if_pos (by omega : ((-1 : Int)) ≤ 0)]

/-- C8 (witness): the path accessors at a concrete ARN whose resource is the
slash-free string `"bucket"`. -/
theorem c8_path_accessors_no_slash_witness :
    ARN.pathLast ⟨"", "", "", "", "", "", "", "bucket", "", false⟩ = "bucket" ∧
    ARN.pathAllButLast ⟨"", "", "", "", "", "", "", "bucket", "", false⟩ = "" :=
  @c8_path_accessors_no_slash ⟨"", "", "", "", "", "", "", "bucket", "", false⟩
    (by decide)

/-- C9 (counterexample): `"a:b:c:D:e:f"` is a string whose trimmed form is
within the length limit, contains only allowed characters, and has a 6th colon
token, yet `parse` rejects it (with `InvalidRegion`), because the region field
is validated — so acceptance does not follow from the claim's conditions
alone. -/
theorem c9_unvalidated_fields_counterexample :
    (jsTrim "a:b:c:D:e:f").data.length ≤ 2048 ∧
    (jsTrim "a:b:c:D:e:f").data.all isAllowedChar = true ∧
    6 ≤ (jsSplit (jsTrim "a:b:c:D:e:f") ':').length ∧
    parse "a:b:c:D:e:f" = .error .invalidRegion :=
  ⟨by decide, by decide, by decide, rfl⟩

/-- C9 (amended): parse never validates prefix, partition, service, or account
content: every string whose trimmed form is at most 2048 characters, contains
only allowed characters, has a non-absent 6th colon token, and whose region
field (4th token) matches the region pattern is accepted, even when the prefix
is not `"arn"`; the prefix check is performed only by `consoleLink`. -/
theorem c9_unvalidated_fields_amended :
    (∀ x : String,
      (jsTrim x).data.length ≤ 2048 →
      (jsTrim x).data.all isAllowedChar = true →
      6 ≤ (jsSplit (jsTrim x) ':').length →
      ((jsSplit (jsTrim x) ':').getD 3 "").data.all isRegionChar = true →
      (parse x).isOk = true) ∧
    (∀ a : ARN, a.pfx ≠ "arn" → a.consoleLink = .error .notAnArn) := by
  constructor
  · intro x hlen hchars htoklen hreg
    simp only [parse]
    rw [if_neg (by omega), if_neg (by simp [hchars])]
    match htoks : jsSplit (jsTrim x) ':' with
    | [] => rw [htoks] at htoklen; simp at htoklen
    | [_] => rw [htoks] at htoklen; simp at htoklen
    | [_, _] => rw [htoks] at htoklen; simp at htoklen
    | [_, _, _] => rw [htoks] at htoklen; simp at htoklen
    | [_, _, _, _] => rw [htoks] at htoklen; simp at htoklen
    | [_, _, _, _, _] => rw [htoks] at htoklen; simp at htoklen
    | t0 :: t1 :: t2 :: t3 :: t4 :: t5 :: rest =>
      rw [htoks] at hreg
      simp only [List.getD, List.get?] at hreg
      cases rest with
      | nil =>
        simp only
        split
        · exact finishArn_isOk (by simpa using hreg)
        · exact finishArn_isOk (by simpa using hreg)
      | cons r rs =>
        simp only
        split
        · exact finishArn_isOk (by simpa using hreg)
        · exact finishArn_isOk (by simpa using hreg)
  · intro a hpfx
    unfold ARN.consoleLink
    rw [if_pos hpfx]

/-- C9 (witness): `"foo:bar:s:r:a:res"` is accepted although its prefix is not
`"arn"`, and `consoleLink` on its parse result fails with `NotAnArn`. -/
theorem c9_unvalidated_fields_amended_witness :
    (parse "foo:bar:s:r:a:res").isOk = true ∧
    ARN.consoleLink ⟨"foo:bar:s:r:a:res", "foo", "bar", "s", "r", "a", "",
      "res", "", false⟩ = .error .notAnArn :=
  ⟨c9_unvalidated_fields_amended.1 "foo:bar:s:r:a:res" (by decide) (by decide)
      (by decide) (by decide),
    c9_unvalidated_fields_amended.2
      ⟨"foo:bar:s:r:a:res", "foo", "bar", "s", "r", "a", "", "res", "", false⟩
      (by decide)⟩

/-- C10: in the type/id:revision shape (7+ colon tokens, 6th token with a `/`
after position 0), resourceRevision is the rejoin with `:` of all tokens from
the 7th onward (so it may itself contain colons), and when it is non-empty the
canonical re-serialization reproduces the whole trimmed input, revision
included, after the `/`-joined type/id. -/
theorem c10_revision_rejoin {x : String} {a : ARN} {t0 t1 t2 t3 t4 t5 : String}
    {rest : List String}
    (htoks : jsSplit (jsTrim x) ':' = t0 :: t1 :: t2 :: t3 :: t4 :: t5 :: rest)
    (hrest : rest ≠ [])
    (hslash : jsIndexOfChar t5 '/' > 0)
    (h : parse x = .ok a) :
    a.resource_revision = jsJoin ":" rest ∧
    (a.resource_revision ≠ "" → a.string = jsTrim x) := by
  obtain ⟨k, hkpos, hk⟩ := jsIndexOfChar_pos_elim hslash
  obtain ⟨hlt, _⟩ := firstIdxOf_spec hk
  have h5ne : t5 ≠ "" := by
    intro hbad
    rw [hbad] at hlt
    simp at hlt
  obtain ⟨_, _, _, _, _, _, hcases⟩ := parse_ok_spec htoks h
  have hrev : a.resource_revision = jsJoin ":" rest := by
    rcases hcases with ⟨hr, _, _, _, _, _⟩ | ⟨hr, _, _, _, _, _⟩ |
      ⟨_, _, _, _, hv, _⟩ | ⟨_, hns, _, _, _, _⟩
    · exact absurd hr hrest
    · exact absurd hr hrest
    · exact hv
    · exact absurd hslash hns
  refine ⟨hrev, fun hne => ?_⟩
  refine parse_string_roundtrip htoks (fun _ => ⟨h5ne, fun _ => ?_⟩) h
  rw [← hrev]
  exact hne

/-- C10 (witness): `"arn:p:s:r:a:t/i:r1:r2"` yields resourceRevision
`"r1:r2"` (colons included) and re-serializes to the original input. -/
theorem c10_revision_rejoin_witness :
    ARN.resource_revision ⟨"arn:p:s:r:a:t/i:r1:r2", "arn", "p", "s", "r", "a",
        "t", "i", "r1:r2", true⟩ = jsJoin ":" ["r1", "r2"] ∧
    (ARN.resource_revision ⟨"arn:p:s:r:a:t/i:r1:r2", "arn", "p", "s", "r", "a",
        "t", "i", "r1:r2", true⟩ ≠ "" →
      ARN.string ⟨"arn:p:s:r:a:t/i:r1:r2", "arn", "p", "s", "r", "a",
        "t", "i", "r1:r2", true⟩ = jsTrim "arn:p:s:r:a:t/i:r1:r2") :=
  @c10_revision_rejoin "arn:p:s:r:a:t/i:r1:r2"
    ⟨"arn:p:s:r:a:t/i:r1:r2", "arn", "p", "s", "r", "a", "t", "i", "r1:r2", true⟩
    "arn" "p" "s" "r" "a" "t/i" ["r1", "r2"] (by decide) (by decide) (by decide) rfl
